import Mathlib

/-!
Verification of the FUSION real-time metrics pipeline.

This file gives a shallow embedding, in Lean 4, of the parts of the
FUSION repository that the verified properties talk about:

* the Derivation Engine of `integration/beval_collector.py`
  (attention score, engagement level, stress indicators, confidence level);
* the Metric Store of `db/models.py` (session creation, the append
  operations with their retry discipline, and the two read operations);
* the Query/Aggregation Service of `api/server.py` (current-session
  resolution for the report endpoint, the aggregated-metrics endpoint and
  the duration sanity checks of the session report);
* the Analytics Engine of `integration/metrics_processor.py`
  (emotional state, trends and behavioural patterns).

Python floats are modelled as rationals, Python strings as `String`,
nullable columns as `Option`, and a table as the list of its rows in
insertion order.  A dictionary read `m.get(key, default)` on a row whose
keys are always present is modelled as field access with `Option.getD`.
-/

namespace Fusion

/-- Lookup in a Python dict literal with a default, `d.get(k, default)`,
for a dict modelled as an association list in insertion order. -/
def dictGetD (d : List (String × ℚ)) (k : String) (default : ℚ) : ℚ :=
  match d.find? (fun p => p.1 == k) with
  | some p => p.2
  | none => default

/-- Lookup of a key in a boolean dict, returning `none` when absent. -/
def dictGetB (d : List (String × Bool)) (k : String) : Option Bool :=
  (d.find? (fun p => p.1 == k)).map (fun p => p.2)

/-- In-place update of one key of a boolean dict, `d[k] = v` in Python;
insertion order of the keys is preserved. -/
def dictSet (d : List (String × Bool)) (k : String) (v : Bool) : List (String × Bool) :=
  d.map (fun p => if p.1 == k then (k, v) else p)

/-- The `unified_state` dictionary that `_process_unified_metric` in
`integration/beval_collector.py` extracts from a BEVAL `data_update`
event before the derivation functions run (the `.get` defaults of the
extraction have already been applied, so every field is present). -/
structure UnifiedState where
  emotion : String
  attention : String
  posture : String
  movement : String
  fatigue : String
  sentiment : ℚ
  confidence : String
deriving DecidableEq, Repr

/-- The `attention_map` dict of `_calculate_attention_score`
(`integration/beval_collector.py`, lines 268-273). -/
def attention_map : List (String × ℚ) :=
  [("Focused", 90), ("Partially Focused", 60), ("Distracted", 30), ("Unknown", 50)]

/-- Embeds `_calculate_attention_score` (`integration/beval_collector.py`,
lines 262-274): `attention_map.get(str(attention_state), 50.0)`.
The input is the attention state of the unified state; the
`isinstance(attention_state, dict)` branch only unwraps a dict-shaped
input to its `state` string, so the string case modelled here is the
one every table entry goes through. -/
def calculate_attention_score (unified_state : UnifiedState) : ℚ :=
  dictGetD attention_map unified_state.attention 50

/-- Embeds `_calculate_engagement_level` (`integration/beval_collector.py`,
lines 276-289). -/
def calculate_engagement_level (unified_state : UnifiedState) : String :=
  if unified_state.attention = "Focused" ∧
      (unified_state.emotion = "happy" ∨ unified_state.emotion = "surprise") ∧
      unified_state.sentiment > 3/10 then
    "high"
  else if unified_state.attention = "Distracted" ∧
      (unified_state.emotion = "sad" ∨ unified_state.emotion = "angry") ∧
      unified_state.sentiment < -(3/10) then
    "low"
  else
    "medium"

/-- Embeds `_calculate_stress_indicators` (`integration/beval_collector.py`,
lines 291-311): the indicator dict is initialised with five keys all
`False`, then four of them are switched on by threshold tests;
`high_blink_rate` is never written after initialisation. -/
def calculate_stress_indicators (unified_state : UnifiedState) : List (String × Bool) :=
  let indicators : List (String × Bool) :=
    [("high_blink_rate", false), ("negative_emotion", false), ("poor_posture", false),
     ("high_movement", false), ("negative_sentiment", false)]
  let indicators :=
    if unified_state.movement = "High" then dictSet indicators "high_movement" true
    else indicators
  let indicators :=
    if unified_state.posture = "Fair" ∨ unified_state.posture = "Poor" then
      dictSet indicators "poor_posture" true
    else indicators
  let indicators :=
    if unified_state.emotion = "sad" ∨ unified_state.emotion = "angry" ∨
        unified_state.emotion = "fear" then
      dictSet indicators "negative_emotion" true
    else indicators
  let indicators :=
    if unified_state.sentiment < -(3/10) then dictSet indicators "negative_sentiment" true
    else indicators
  indicators

/-- The `confidence_map` dict of `_calculate_confidence_level`
(`integration/beval_collector.py`, lines 316-320). -/
def confidence_map : List (String × ℚ) :=
  [("high", 9/10), ("medium", 3/5), ("low", 3/10)]

/-- Embeds `_calculate_confidence_level` (`integration/beval_collector.py`,
lines 313-321): `confidence_map.get(confidence_str, 0.5)`. -/
def calculate_confidence_level (unified_state : UnifiedState) : ℚ :=
  dictGetD confidence_map unified_state.confidence (1/2)

/-- The `UnifiedMetric` dataclass of `db/models.py` (lines 61-78), as the
collector fills it in; the two serialized snapshot blobs `video_data`
and `audio_data` are kept as already-serialized text, and the
`stress_indicators` dict is kept structurally (its TEXT serialization is
`json.dumps`, inverted by `json.loads`, both Python stdlib). -/
structure UnifiedMetric where
  session_id : String
  timestamp : ℚ
  unified_emotion : Option String := none
  unified_attention : Option String := none
  unified_posture : Option String := none
  unified_movement : Option String := none
  unified_fatigue : Option String := none
  unified_sentiment : Option ℚ := none
  unified_confidence : Option String := none
  attention_score : Option ℚ := none
  engagement_level : Option String := none
  stress_indicators : Option (List (String × Bool)) := none
  confidence_level : Option ℚ := none
  video_data : Option String := none
  audio_data : Option String := none
deriving DecidableEq, Repr

/-- The `UnifiedMetric` constructed by `_process_unified_metric`
(`integration/beval_collector.py`, lines 237-253) from the extracted
`unified_state` (the raw `video_data` and `audio_data` snapshots are
not modelled). -/
def process_unified_metric (session_id : String) (timestamp : ℚ)
    (unified_state : UnifiedState) : UnifiedMetric :=
  { session_id := session_id
    timestamp := timestamp
    unified_emotion := some unified_state.emotion
    unified_attention := some unified_state.attention
    unified_posture := some unified_state.posture
    unified_movement := some unified_state.movement
    unified_fatigue := some unified_state.fatigue
    unified_sentiment := some unified_state.sentiment
    unified_confidence := some unified_state.confidence
    attention_score := some (calculate_attention_score unified_state)
    engagement_level := some (calculate_engagement_level unified_state)
    stress_indicators := some (calculate_stress_indicators unified_state)
    confidence_level := some (calculate_confidence_level unified_state) }

/-- C2.  `deriveAttentionScore` is a pure total function returning 90 for
"Focused", 60 for "Partially Focused", 30 for "Distracted", 50 for
"Unknown" and 50 for any other input, and the `attention_score` stored in
every `UnifiedMetric` built by the collector is exactly this function of
its `attention_state`. -/
theorem attention_score_fixed_mapping (st : UnifiedState) :
    (st.attention = "Focused" → calculate_attention_score st = 90) ∧
    (st.attention = "Partially Focused" → calculate_attention_score st = 60) ∧
    (st.attention = "Distracted" → calculate_attention_score st = 30) ∧
    (st.attention = "Unknown" → calculate_attention_score st = 50) ∧
    (st.attention ∉ (["Focused", "Partially Focused", "Distracted", "Unknown"] : List String) →
      calculate_attention_score st = 50) ∧
    (∀ sid ts, (process_unified_metric sid ts st).attention_score =
      some (calculate_attention_score st)) := by
  refine ⟨?_, ?_, ?_, ?_, ?_, fun sid ts => rfl⟩
  case _ | _ | _ | _ =>
    intro h
    simp [calculate_attention_score, dictGetD, attention_map, List.find?, h]
  intro h
  simp only [List.mem_cons, List.not_mem_nil, or_false, not_or] at h
  obtain ⟨h1, h2, h3, h4⟩ := h
  have e1 : ("Focused" == st.attention) = false := beq_eq_false_iff_ne.mpr (Ne.symm h1)
  have e2 : ("Partially Focused" == st.attention) = false := beq_eq_false_iff_ne.mpr (Ne.symm h2)
  have e3 : ("Distracted" == st.attention) = false := beq_eq_false_iff_ne.mpr (Ne.symm h3)
  have e4 : ("Unknown" == st.attention) = false := beq_eq_false_iff_ne.mpr (Ne.symm h4)
  simp [calculate_attention_score, dictGetD, attention_map, List.find?, e1, e2, e3, e4]

/-- C2 witness: the mapping evaluated at two concrete attention states,
one from the table and one absent from it. -/
theorem attention_score_fixed_mapping_witness :
    calculate_attention_score ⟨"neutral", "Focused", "Good", "Low", "Normal", 0, "medium"⟩ = 90 ∧
    calculate_attention_score ⟨"neutral", "Sleepy", "Good", "Low", "Normal", 0, "medium"⟩ = 50 := by
  constructor
  · exact (attention_score_fixed_mapping
      ⟨"neutral", "Focused", "Good", "Low", "Normal", 0, "medium"⟩).1 rfl
  · exact (attention_score_fixed_mapping
      ⟨"neutral", "Sleepy", "Good", "Low", "Normal", 0, "medium"⟩).2.2.2.2.1 (by decide)

/-- C6 counterexample: the indicator structure returned by
`_calculate_stress_indicators` is not the four-boolean structure the
claim describes: it contains a fifth key `high_blink_rate`. -/
theorem stress_indicators_have_fifth_key :
    (calculate_stress_indicators
        ⟨"neutral", "Unknown", "Good", "Low", "Normal", 0, "medium"⟩).map Prod.fst ≠
      ["high_movement", "poor_posture", "negative_emotion", "negative_sentiment"] ∧
    ("high_blink_rate", false) ∈
      calculate_stress_indicators
        ⟨"neutral", "Unknown", "Good", "Low", "Normal", 0, "medium"⟩ := by
  constructor <;>
    · simp [calculate_stress_indicators, dictSet]
      norm_num

/-- C6 amended.  `deriveStressIndicators` returns a structure of five
booleans: an always-false `high_blink_rate` together with the four
claimed tests — `high_movement` iff movement is "High", `poor_posture`
iff posture is "Fair" or "Poor", `negative_emotion` iff emotion is one
of sad, angry, fear, and `negative_sentiment` iff sentiment < -0.3. -/
theorem stress_indicators_fields (st : UnifiedState) :
    (calculate_stress_indicators st).map Prod.fst =
      ["high_blink_rate", "negative_emotion", "poor_posture",
       "high_movement", "negative_sentiment"] ∧
    dictGetB (calculate_stress_indicators st) "high_blink_rate" = some false ∧
    dictGetB (calculate_stress_indicators st) "high_movement" =
      some (decide (st.movement = "High")) ∧
    dictGetB (calculate_stress_indicators st) "poor_posture" =
      some (decide (st.posture = "Fair" ∨ st.posture = "Poor")) ∧
    dictGetB (calculate_stress_indicators st) "negative_emotion" =
      some (decide (st.emotion = "sad" ∨ st.emotion = "angry" ∨ st.emotion = "fear")) ∧
    dictGetB (calculate_stress_indicators st) "negative_sentiment" =
      some (decide (st.sentiment < -(3/10))) := by
  unfold calculate_stress_indicators
  split_ifs <;>
    simp_all [dictGetB, dictSet, List.find?]

/-- A row of the `sessions` table. -/
structure SessionRow where
  session_id : String
  user_id : Option String
  start_time : ℚ
deriving DecidableEq, Repr

/-- Embeds `create_session` (`db/models.py`, lines 184-199), returning the new
table contents alongside the boolean result.  Modelled from the spec:
the sessions table schema lives in `db/schema.sql`, which is not among
the sources; per spec section 3 `session_id` is a unique key, so a
duplicate INSERT raises `sqlite3.IntegrityError`, which `create_session`
catches, logs and turns into the return value `False`, the failed INSERT
leaving the table unchanged. -/
def create_session (sessions : List SessionRow) (session_id : String)
    (user_id : Option String) (now : ℚ) : Bool × List SessionRow :=
  if sessions.any (fun s => s.session_id == session_id) then
    (false, sessions)
  else
    (true, sessions ++ [⟨session_id, user_id, now⟩])

/-- The POST `/api/sessions` endpoint (`api/server.py`, lines 778-789):
the message of the structured response, alongside the table contents. -/
def create_session_endpoint (sessions : List SessionRow) (session_id : String)
    (user_id : Option String) (now : ℚ) : String × List SessionRow :=
  let r := create_session sessions session_id user_id now
  (if r.1 then "Session created" else "Session already exists", r.2)

/-- C7.  Session creation is idempotent: when the id already exists the
call is a no-op returning `False` (reported as "Session already exists"),
the table is unchanged and no exception escapes (the model is a total
function); a first creation returns `True` with a distinct message. -/
theorem session_creation_idempotent (sessions : List SessionRow)
    (sid : String) (uid : Option String) (now : ℚ) :
    ((∃ s ∈ sessions, s.session_id = sid) →
        create_session sessions sid uid now = (false, sessions) ∧
        (create_session_endpoint sessions sid uid now).1 = "Session already exists") ∧
    ((∀ s ∈ sessions, s.session_id ≠ sid) →
        (create_session sessions sid uid now).1 = true ∧
        (create_session_endpoint sessions sid uid now).1 = "Session created") ∧
    ("Session already exists" : String) ≠ "Session created" := by
  refine ⟨fun h => ?_, fun h => ?_, by decide⟩
  · have : sessions.any (fun s => s.session_id == sid) = true := by
      obtain ⟨s, hs, he⟩ := h
      exact List.any_eq_true.mpr ⟨s, hs, beq_iff_eq.mpr he⟩
    simp [create_session, create_session_endpoint, this]
  · have : sessions.any (fun s => s.session_id == sid) = false := by
      simp only [List.any_eq_false, beq_iff_eq]
      exact h
    simp [create_session, create_session_endpoint, this]

/-- C7 witness: a duplicate creation of "s1" is a no-op answered with
the already-exists message, while a fresh id succeeds. -/
theorem session_creation_idempotent_witness :
    create_session [⟨"s1", none, 0⟩] "s1" none 5 = (false, [⟨"s1", none, 0⟩]) ∧
    (create_session [⟨"s1", none, 0⟩] "s2" none 5).1 = true := by
  constructor
  · exact ((session_creation_idempotent [⟨"s1", none, 0⟩] "s1" none 5).1
      ⟨⟨"s1", none, 0⟩, by simp, rfl⟩).1
  · exact ((session_creation_idempotent [⟨"s1", none, 0⟩] "s2" none 5).2.1
      (by intro s hs; simp only [List.mem_singleton] at hs; subst hs; decide)).1

/-- The observable outcome of one INSERT attempt inside the retry loop of
`save_video_metric` / `save_audio_metric` / `save_unified_metric`
(`db/models.py`, lines 201-309): the commit succeeds, or raises
`sqlite3.OperationalError` with "database is locked" in the message, or
raises some other exception. -/
inductive AttemptOutcome
  | ok
  | locked
  | otherError
deriving DecidableEq, Repr

/-- The trace of one call of a save operation: the boolean returned to
the caller, the sleeps performed between attempts, and how many INSERT
attempts were made. -/
structure RetryTrace where
  result : Bool
  sleeps : List ℚ
  attempts : ℕ
deriving DecidableEq, Repr

/-- The `for attempt in range(max_retries)` loop shared verbatim by
`save_video_metric`, `save_audio_metric` and `save_unified_metric`
(`db/models.py`, lines 201-309), with `max_retries = 3` and
`retry_delay = 0.1`: on "database is locked" before the last attempt it
sleeps `retry_delay * (2 ** attempt)` and retries; on the last attempt,
or on any other exception, it logs and returns `False`.  The fuel
argument is the number of loop iterations left. -/
def saveAttemptLoop (outcomes : ℕ → AttemptOutcome) (max_retries : ℕ) :
    ℕ → ℕ → RetryTrace
  | 0, _ => ⟨false, [], 0⟩
  | fuel + 1, attempt =>
    match outcomes attempt with
    | .ok => ⟨true, [], 1⟩
    | .otherError => ⟨false, [], 1⟩
    | .locked =>
      if attempt < max_retries - 1 then
        let t := saveAttemptLoop outcomes max_retries fuel (attempt + 1)
        ⟨t.result, (1/10 : ℚ) * 2 ^ attempt :: t.sleeps, t.attempts + 1⟩
      else ⟨false, [], 1⟩

/-- One call of a save operation with `max_retries = 3`,
`retry_delay = 0.1`, as a function of the outcome each INSERT attempt
would have. -/
def save_metric_retry (outcomes : ℕ → AttemptOutcome) : RetryTrace :=
  saveAttemptLoop outcomes 3 3 0

/-- C4.  Every save operation makes at most 3 INSERT attempts, sleeping
`0.1 * 2 ^ i` seconds after the i-th locked attempt (backoff 100ms,
200ms), and when every attempt reports "database is locked" it returns
`False` to the caller (the record is dropped) without raising — the
model is a total function and the generic exception handler also maps
any other error to `False`. -/
theorem save_retry_discipline (outcomes : ℕ → AttemptOutcome) :
    (save_metric_retry outcomes).attempts ≤ 3 ∧
    (save_metric_retry outcomes).sleeps =
      (List.range ((save_metric_retry outcomes).attempts - 1)).map
        (fun i => (1/10 : ℚ) * 2 ^ i) ∧
    ((outcomes 0 = .locked ∧ outcomes 1 = .locked ∧ outcomes 2 = .locked) →
      save_metric_retry outcomes = ⟨false, [1/10, 1/5], 3⟩) := by
  rcases h0 : outcomes 0 <;> rcases h1 : outcomes 1 <;> rcases h2 : outcomes 2 <;>
    refine ⟨?_, ?_, ?_⟩ <;>
      · simp_all [save_metric_retry, saveAttemptLoop, List.range_succ]
        try norm_num

/-- C4 witness: with the store locked at every attempt the save makes
exactly 3 attempts, sleeps 100ms then 200ms, and returns False. -/
theorem save_retry_discipline_witness :
    save_metric_retry (fun _ => AttemptOutcome.locked) = ⟨false, [1/10, 1/5], 3⟩ :=
  (save_retry_discipline (fun _ => AttemptOutcome.locked)).2.2 ⟨rfl, rfl, rfl⟩

/-- One row of a metrics table, projected to the two columns the
current-session queries of `api/server.py` read. -/
structure MetricRow where
  session_id : String
  timestamp : ℚ
deriving DecidableEq, Repr

/-- The `WHERE timestamp > ?` restriction of the tier queries. -/
def recentRows (table : List MetricRow) (cutoff : ℚ) : List MetricRow :=
  table.filter (fun r => cutoff < r.timestamp)

/-- The `GROUP BY session_id` grouping: the distinct session ids of a row set. -/
def sessionIds (rows : List MetricRow) : List String :=
  (rows.map (fun r => r.session_id)).dedup

/-- The `MAX(timestamp)` of the group of one session (`⊥` when the group is
empty, i.e. the session does not appear). -/
def sessionMax (rows : List MetricRow) (sid : String) : WithBot ℚ :=
  ((rows.filter (fun r => r.session_id == sid)).map (fun r => r.timestamp)).maximum

/-- The `COUNT(*)` of the group of one session. -/
def sessionCount (rows : List MetricRow) (sid : String) : ℕ :=
  (rows.filter (fun r => r.session_id == sid)).length

/-- The `ORDER BY last_time DESC, metric_count DESC` sort key of the
tier queries, as a lexicographic pair. -/
def sessionKey (rows : List MetricRow) (sid : String) : Lex (WithBot ℚ × ℕ) :=
  toLex (sessionMax rows sid, sessionCount rows sid)

/-- One tier query of `get_session_report` (`api/server.py`,
lines 253-301): `SELECT session_id, MAX(timestamp), COUNT(*) ...
GROUP BY session_id ORDER BY last_time DESC, metric_count DESC LIMIT 1`,
returning `none` exactly when the row set is empty (the check
`result and result[2] > 0` in the code, a grouped row always having
count at least 1). -/
def pickSession (rows : List MetricRow) : Option String :=
  (sessionIds rows).argmax (sessionKey rows)

/-- The "current" session resolution of `get_session_report`
(`api/server.py`, lines 245-308): unified metrics of the last hour,
then video metrics of the last hour, then audio metrics of the last
hour, then unified metrics without time filter; each tier is consulted
only when every earlier tier returned nothing. -/
def resolveCurrentSession (unified video audio : List MetricRow)
    (one_hour_ago : ℚ) : Option String :=
  pickSession (recentRows unified one_hour_ago) <|>
    (pickSession (recentRows video one_hour_ago) <|>
      (pickSession (recentRows audio one_hour_ago) <|> pickSession unified))

/-- The first non-empty tier in the claimed order, written from the
wording of the claim for comparison with `resolveCurrentSession`. -/
def firstTier (unified video audio : List MetricRow) (one_hour_ago : ℚ) :
    List MetricRow :=
  if recentRows unified one_hour_ago ≠ [] then recentRows unified one_hour_ago
  else if recentRows video one_hour_ago ≠ [] then recentRows video one_hour_ago
  else if recentRows audio one_hour_ago ≠ [] then recentRows audio one_hour_ago
  else unified

theorem sessionIds_eq_nil (rows : List MetricRow) :
    sessionIds rows = [] ↔ rows = [] := by
  simp [sessionIds]

theorem pickSession_eq_none (rows : List MetricRow) :
    pickSession rows = none ↔ rows = [] := by
  rw [pickSession, List.argmax_eq_none, sessionIds_eq_nil]

theorem pickSession_spec (rows : List MetricRow) (s : String)
    (h : pickSession rows = some s) :
    s ∈ sessionIds rows ∧
      ∀ t ∈ sessionIds rows, sessionMax rows t ≤ sessionMax rows s := by
  have hmem : s ∈ (sessionIds rows).argmax (sessionKey rows) := Option.mem_def.mpr h
  refine ⟨List.argmax_mem hmem, fun t ht => ?_⟩
  have hnlt := List.not_lt_of_mem_argmax ht hmem
  have hle : sessionKey rows t ≤ sessionKey rows s := not_lt.mp hnlt
  simp only [sessionKey] at hle
  rcases (Prod.Lex.le_iff _ _).mp hle with hlt | ⟨heq, _⟩
  · exact le_of_lt hlt
  · exact le_of_eq heq

/-- C1.  With the sentinel id "current" the report endpoint resolves
the session through the tiers unified-last-hour, video-last-hour,
audio-last-hour, unified-unrestricted: the result always equals the
selection over the first non-empty tier, and any returned session
belongs to that tier and has the greatest maximum timestamp within it. -/
theorem report_current_session_resolution (u v a : List MetricRow)
    (one_hour_ago : ℚ) :
    resolveCurrentSession u v a one_hour_ago =
      pickSession (firstTier u v a one_hour_ago) ∧
    ∀ s, resolveCurrentSession u v a one_hour_ago = some s →
      s ∈ sessionIds (firstTier u v a one_hour_ago) ∧
      ∀ t ∈ sessionIds (firstTier u v a one_hour_ago),
        sessionMax (firstTier u v a one_hour_ago) t ≤
          sessionMax (firstTier u v a one_hour_ago) s := by
  have hfirst : resolveCurrentSession u v a one_hour_ago =
      pickSession (firstTier u v a one_hour_ago) := by
    have hnil : pickSession ([] : List MetricRow) = none := rfl
    by_cases e1 : recentRows u one_hour_ago = []
    · by_cases e2 : recentRows v one_hour_ago = []
      · by_cases e3 : recentRows a one_hour_ago = []
        · simp [resolveCurrentSession, firstTier, e1, e2, e3, hnil]
        · obtain ⟨s, hs⟩ := Option.ne_none_iff_exists.mp
            (fun hn => e3 ((pickSession_eq_none _).mp hn))
          simp [resolveCurrentSession, firstTier, e1, e2, e3, hnil, hs.symm]
      · obtain ⟨s, hs⟩ := Option.ne_none_iff_exists.mp
          (fun hn => e2 ((pickSession_eq_none _).mp hn))
        simp [resolveCurrentSession, firstTier, e1, e2, hnil, hs.symm]
    · obtain ⟨s, hs⟩ := Option.ne_none_iff_exists.mp
        (fun hn => e1 ((pickSession_eq_none _).mp hn))
      simp [resolveCurrentSession, firstTier, e1, hs.symm]
  exact ⟨hfirst, fun s hsome =>
    pickSession_spec _ s (hfirst ▸ hsome)⟩

/-- C1 witness: the unified table has only stale rows, so resolution
falls through to the video tier and returns its session with the
greatest maximum timestamp. -/
theorem report_current_session_resolution_witness :
    resolveCurrentSession [⟨"old", 10⟩] [⟨"s1", 150⟩, ⟨"s2", 200⟩] [] 100 = some "s2" ∧
    "s2" ∈ sessionIds (firstTier [⟨"old", 10⟩] [⟨"s1", 150⟩, ⟨"s2", 200⟩] [] 100) := by
  have h := report_current_session_resolution
    [⟨"old", 10⟩] [⟨"s1", 150⟩, ⟨"s2", 200⟩] [] 100
  have hres : resolveCurrentSession [⟨"old", 10⟩] [⟨"s1", 150⟩, ⟨"s2", 200⟩] [] 100 =
      some "s2" := by
    rw [h.1]; rfl
  exact ⟨hres, (h.2 "s2" hres).1⟩

/-- The `json.dumps(d) if d else None` gate of `save_unified_metric`
(`db/models.py`, line 293): a `None` or empty dict is stored as SQL
NULL; a non-empty dict is stored as its serialized text.  The TEXT blob
is modelled structurally, `json.dumps` and `json.loads` being mutually
inverse Python stdlib functions on these dicts. -/
def dumpsIfTruthy (d : Option (List (String × Bool))) : Option (List (String × Bool)) :=
  match d with
  | none => none
  | some l => if l.isEmpty then none else some l

/-- The INSERT of `save_unified_metric` (`db/models.py`, lines 273-309),
i.e. the effect on the `unified_metrics` table of one successful attempt
of its retry loop: the row is appended with the serialization gate
applied to `stress_indicators` (the `video_data` and `audio_data` blobs
are already carried as stored text in this model). -/
def save_unified_metric_row (table : List UnifiedMetric) (metric : UnifiedMetric) :
    List UnifiedMetric :=
  table ++ [{ metric with stress_indicators := dumpsIfTruthy metric.stress_indicators }]

/-- The query of `get_current_metrics` (`db/models.py`, lines 311-331):
`SELECT * FROM unified_metrics WHERE session_id = ? ORDER BY timestamp
DESC LIMIT 1`. -/
def get_current_metrics (table : List UnifiedMetric) (session_id : String) :
    Option UnifiedMetric :=
  (table.filter (fun r => r.session_id == session_id)).argmax (fun r => r.timestamp)

/-- The query of `get_metrics_range` (`db/models.py`, lines 333-348):
`SELECT * ... WHERE session_id = ? AND timestamp >= ? AND timestamp <= ?
ORDER BY timestamp ASC`. -/
def get_metrics_range (table : List UnifiedMetric) (session_id : String)
    (start_time end_time : ℚ) : List UnifiedMetric :=
  List.insertionSort (fun r s => r.timestamp ≤ s.timestamp)
    (table.filter (fun r => r.session_id == session_id &&
      decide (start_time ≤ r.timestamp) && decide (r.timestamp ≤ end_time)))

/-- Runs `get_current_metrics` with its `try`/`except` wrapper: `raised` says
whether the body raised an internal exception, which the handler logs
and converts to `None`. -/
def get_current_metrics_run (raised : Bool) (table : List UnifiedMetric)
    (session_id : String) : Option UnifiedMetric :=
  if raised then none else get_current_metrics table session_id

/-- Runs `get_metrics_range` with its `try`/`except` wrapper: an internal
exception is logged and converted to the empty list. -/
def get_metrics_range_run (raised : Bool) (table : List UnifiedMetric)
    (session_id : String) (start_time end_time : ℚ) : List UnifiedMetric :=
  if raised then [] else get_metrics_range table session_id start_time end_time

theorem argmax_concat_of_lt {α : Type} (f : α → ℚ) (l : List α) (x : α)
    (h : ∀ a ∈ l, f a < f x) : (l ++ [x]).argmax f = some x := by
  rw [List.argmax_concat]
  rcases hc : l.argmax f with _ | c
  · rfl
  · show (if f c < f x then some x else some c) = some x
    exact if_pos (h c (List.argmax_mem (Option.mem_def.mpr hc)))

/-- C3 counterexample: a `UnifiedMetric` written with the empty
`stress_indicators` structure reads back as SQL NULL (`None`), not as
the empty structure, because of the truthiness gate of the write. -/
theorem stress_roundtrip_empty_counterexample :
    ((get_current_metrics
        (save_unified_metric_row []
          { session_id := "s1", timestamp := 1, stress_indicators := some [] })
        "s1").map (fun r => r.stress_indicators)) = some none ∧
    some ([] : List (String × Bool)) ≠ (none : Option (List (String × Bool))) := by
  exact ⟨rfl, by simp⟩

/-- C3 amended.  For every `UnifiedMetric` written with a non-empty
`stress_indicators` structure S, at a timestamp newer than every stored
row of its session, reading the latest metric of that session back
returns a row whose `stress_indicators` equal S; the empty structure
instead is stored as NULL. -/
theorem stress_roundtrip (table : List UnifiedMetric) (metric : UnifiedMetric)
    (S : List (String × Bool)) (hS : metric.stress_indicators = some S) (hne : S ≠ [])
    (hfresh : ∀ r ∈ table, r.session_id = metric.session_id →
      r.timestamp < metric.timestamp) :
    ∃ r, get_current_metrics (save_unified_metric_row table metric)
        metric.session_id = some r ∧
      r.stress_indicators = some S := by
  refine ⟨{ metric with stress_indicators := dumpsIfTruthy metric.stress_indicators },
    ?_, ?_⟩
  · have key : List.filter (fun r => r.session_id == metric.session_id)
        (save_unified_metric_row table metric) =
        List.filter (fun r => r.session_id == metric.session_id) table ++
          [{ metric with stress_indicators := dumpsIfTruthy metric.stress_indicators }] := by
      unfold save_unified_metric_row
      rw [List.filter_append]
      simp
    unfold get_current_metrics
    rw [key]
    refine argmax_concat_of_lt _ _ _ ?_
    intro r hr
    rw [List.mem_filter] at hr
    exact hfresh r hr.1 (beq_iff_eq.mp hr.2)
  · cases S with
    | nil => exact absurd rfl hne
    | cons p t => simp [dumpsIfTruthy, hS]

/-- C3 witness: a one-key structure written to a fresh table reads back
equal. -/
theorem stress_roundtrip_witness :
    ((get_current_metrics
        (save_unified_metric_row []
          { session_id := "s1", timestamp := 1,
            stress_indicators := some [("high_movement", true)] })
        "s1").map (fun r => r.stress_indicators)) =
      some (some [("high_movement", true)]) := by
  obtain ⟨r, h1, h2⟩ := stress_roundtrip []
    { session_id := "s1", timestamp := 1,
      stress_indicators := some [("high_movement", true)] }
    [("high_movement", true)] rfl (by simp) (by simp)
  have h1s : get_current_metrics
      (save_unified_metric_row []
        { session_id := "s1", timestamp := 1,
          stress_indicators := some [("high_movement", true)] })
      "s1" = some r := h1
  rw [h1s]
  simp [h2]

/-- C10.  The store read operations never raise: an internal failure in
`get_current_metrics` is converted to `None` and one in
`get_metrics_range` to the empty list, so a caller cannot distinguish an
internal read fault from a session absent from the table (or an empty
window), which produce the same values. -/
theorem store_reads_never_raise (table other : List UnifiedMetric)
    (sid : String) (t0 t1 : ℚ) (hother : ∀ r ∈ other, r.session_id ≠ sid) :
    get_current_metrics_run true table sid = none ∧
    get_metrics_range_run true table sid t0 t1 = [] ∧
    get_current_metrics_run true table sid = get_current_metrics_run false other sid ∧
    get_metrics_range_run true table sid t0 t1 =
      get_metrics_range_run false other sid t0 t1 := by
  have hfilter : other.filter (fun r => r.session_id == sid) = [] := by
    rw [List.filter_eq_nil_iff]
    intro r hr
    simp [beq_eq_false_iff_ne.mpr (hother r hr)]
  have hfilter2 : other.filter (fun r => r.session_id == sid &&
      decide (t0 ≤ r.timestamp) && decide (r.timestamp ≤ t1)) = [] := by
    rw [List.filter_eq_nil_iff]
    intro r hr
    simp [beq_eq_false_iff_ne.mpr (hother r hr)]
  refine ⟨rfl, rfl, ?_, ?_⟩
  · simp [get_current_metrics_run, get_current_metrics, hfilter]
  · simp [get_metrics_range_run, get_metrics_range, hfilter2]

/-- C10 witness: a faulty read over a populated table coincides with a
healthy read over a table holding only other sessions. -/
theorem store_reads_never_raise_witness :
    get_current_metrics_run true [{ session_id := "s1", timestamp := 1 }] "s1" = none ∧
    get_metrics_range_run true [{ session_id := "s1", timestamp := 1 }] "s1" 0 2 = [] := by
  have h := store_reads_never_raise [{ session_id := "s1", timestamp := 1 }]
    [{ session_id := "s2", timestamp := 1 }] "s1" 0 2
    (by intro r hr; simp only [List.mem_singleton] at hr; subst hr; decide)
  exact ⟨h.1, h.2.1⟩

/-- The `EMOTION_VALENCE` class attribute of `MetricsProcessor`
(`integration/metrics_processor.py`, lines 19-27). -/
def EMOTION_VALENCE : List (String × ℚ) :=
  [("happy", 1), ("surprise", 1/2), ("neutral", 0), ("sad", -(1/2)),
   ("fear", -(7/10)), ("angry", -(4/5)), ("disgust", -(3/5))]

/-- The `INTENSITY_THRESHOLDS` class attribute of `MetricsProcessor`
(`integration/metrics_processor.py`, lines 30-35). -/
def INTENSITY_THRESHOLDS : List (String × ℚ) :=
  [("attention_high", 75), ("attention_low", 35),
   ("sentiment_strong", 2/5), ("engagement_high", 7/10)]

/-- The dict returned by `_analyze_emotional_state`; the three fields
only present on the analysing path are wrapped in an outer `Option`,
`none` standing for an absent key of the early-return dict (the
engagement value itself is the nullable column value, hence the inner
`Option`). -/
structure EmotionalState where
  primary_emotion : String
  intensity : String
  valence : ℚ
  empathy_needed : String
  complexity : String
  fatigue_factor : Option Bool
  engagement_level : Option (Option String)
  attention_quality : Option String
deriving DecidableEq, Repr

/-- Embeds `_analyze_emotional_state` (`integration/metrics_processor.py`,
lines 93-150), over the row dict returned by the store (`none` input when
the session has no data).  A row dict always carries its keys, so the
`.get` defaults are inert; on the analysing branch a NULL
`unified_emotion` reaches `None.lower()` and raises `AttributeError`,
and a NULL `unified_sentiment` or `attention_score` reaches an
arithmetic comparison and raises `TypeError` — the result `none` models
such a raise (caught by the `try`/`except` of `get_context_for_convei`).
A NULL `unified_fatigue` or `engagement_level` raises nothing: in Python
`None != "Normal"` is `True`, and the engagement value is only stored,
so those stay at the `Option` level. -/
def analyze_emotional_state (current : Option UnifiedMetric) : Option EmotionalState :=
  match current with
  | none => some ⟨"neutral", "mild", 0, "low", "simple", none, none, none⟩
  | some cur =>
    match cur.unified_emotion, cur.unified_sentiment, cur.attention_score with
    | some emotion_raw, some sentiment, some attention_score =>
      let emotion := emotion_raw.toLower
      let valence := dictGetD EMOTION_VALENCE emotion 0
      let combined_valence := (valence + sentiment) / 2
      let intensity :=
        if |sentiment| > dictGetD INTENSITY_THRESHOLDS "sentiment_strong" 0 then "strong"
        else if attention_score > dictGetD INTENSITY_THRESHOLDS "attention_high" 0 ∨
            attention_score < dictGetD INTENSITY_THRESHOLDS "attention_low" 0 then "strong"
        else if |sentiment| > 2/10 then "moderate"
        else "mild"
      let empathy_needed :=
        if emotion = "sad" ∨ emotion = "fear" ∨ emotion = "angry" then
          if intensity = "strong" then "very_high" else "high"
        else if (emotion = "surprise" ∨ emotion = "happy") ∧ intensity = "strong" then
          "moderate"
        else "low"
      let complexity0 :=
        if cur.unified_fatigue ≠ some "Normal" ∧ emotion ≠ "neutral" then "complex"
        else "simple"
      let complexity :=
        if (emotion = "sad" ∨ emotion = "angry") ∧ sentiment > 0 then "mixed"
        else complexity0
      some ⟨emotion, intensity, combined_valence, empathy_needed, complexity,
        some (decide (cur.unified_fatigue ≠ some "Normal")), some cur.engagement_level,
        some (if attention_score > 70 then "high"
          else if attention_score < 40 then "low" else "moderate")⟩
    | _, _, _ => none

/-- Embeds `Counter(l).most_common(1)`: the element with the greatest count,
ties resolved to the element first encountered (Python `Counter`
preserves first-encounter order of its keys); `none` on an empty
list. -/
def counterMostCommon {α : Type} [DecidableEq α] (l : List α) : Option α :=
  (l.foldl (fun acc a => if a ∈ acc then acc else acc ++ [a]) []).argmax
    (fun e => l.count e)

/-- Embeds `self.EMOTION_VALENCE.get(e, 0)` applied to an emotion drawn
from a row dict: a NULL emotion is Python `None`, which is not a key of
the valence dict, so the default 0 is returned. -/
def valenceOf (e : Option String) : ℚ :=
  match e with
  | some s => dictGetD EMOTION_VALENCE s 0
  | none => 0

/-- The dict returned by `_analyze_emotional_trends`; the two fields
only present on the analysing path are wrapped in an outer `Option`,
`none` standing for an absent key of the early-return dict.  Emotions
drawn from the rows are `Option String`, a NULL column being the
distinct Python value `None` in sets, `Counter`s and comparisons. -/
structure Trends where
  emotion_stability : String
  sentiment_direction : String
  attention_pattern : String
  emotional_arc : String
  dominant_emotion : Option (Option String)
  emotion_sequence : Option (List (Option String))
deriving DecidableEq, Repr

/-- Embeds `_analyze_emotional_trends` (`integration/metrics_processor.py`,
lines 152-216).  The row dicts always carry their keys, so
`m.get("unified_emotion", "neutral")` is the raw nullable value. -/
def analyze_emotional_trends (metrics_range : List UnifiedMetric) : Trends :=
  if metrics_range.length < 2 then
    ⟨"unknown", "stable", "unknown", "flat", none, none⟩
  else
    let emotions := metrics_range.map (fun m => m.unified_emotion)
    let sentiments := metrics_range.filterMap (fun m => m.unified_sentiment)
    let attention_scores := metrics_range.filterMap (fun m => m.attention_score)
    let unique_emotions := emotions.dedup.length
    let stability :=
      if unique_emotions ≤ 2 then "stable"
      else if unique_emotions ≤ 4 then "moderate"
      else "volatile"
    let sentiment_direction :=
      if 3 ≤ sentiments.length then
        let first_half := (sentiments.take (sentiments.length / 2)).sum /
          ((max (sentiments.length / 2) 1 : ℕ) : ℚ)
        let second_half := (sentiments.drop (sentiments.length / 2)).sum /
          ((max (sentiments.length - sentiments.length / 2) 1 : ℕ) : ℚ)
        if second_half > first_half + 2/10 then "improving"
        else if second_half < first_half - 2/10 then "declining"
        else "stable"
      else "stable"
    let attention_pattern :=
      if 3 ≤ attention_scores.length then
        let mean := attention_scores.sum / (attention_scores.length : ℚ)
        let variance := (attention_scores.map (fun x => (x - mean) ^ 2)).sum /
          (attention_scores.length : ℚ)
        if variance > 400 then "fluctuating"
        else if attention_scores.getLastI < attention_scores.headI - 15 then "declining"
        else if attention_scores.getLastI > attention_scores.headI + 15 then "improving"
        else "consistent"
      else "consistent"
    let dominant_first := counterMostCommon (emotions.take (emotions.length / 2))
    let dominant_second := counterMostCommon (emotions.drop (emotions.length / 2))
    let emotional_arc :=
      match dominant_first, dominant_second with
      | some first_emotion, some second_emotion =>
        let first_valence := valenceOf first_emotion
        let second_valence := valenceOf second_emotion
        if second_valence > first_valence + 3/10 then "brightening"
        else if second_valence < first_valence - 3/10 then "darkening"
        else if second_emotion ≠ first_emotion then "shifting"
        else "flat"
      | _, _ => "flat"
    ⟨stability, sentiment_direction, attention_pattern, emotional_arc,
      some ((counterMostCommon emotions).getD (some "neutral")),
      some (if 5 ≤ emotions.length then emotions.drop (emotions.length - 5)
        else emotions)⟩

/-- The stress test of one window entry in `_detect_behavioral_patterns`
(`integration/metrics_processor.py`, line 238). -/
def isStressIndex (m : UnifiedMetric) : Bool :=
  (m.unified_fatigue.getD "Normal" == "Moderate" ||
    m.unified_fatigue.getD "Normal" == "Severe") ||
  ((m.unified_emotion.getD "neutral" == "angry" ||
      m.unified_emotion.getD "neutral" == "fear") &&
    decide (m.attention_score.getD 50 > 60))

/-- The engagement-drop test of one window entry (line 246-248): the
attention score fell by more than 20 from the previous sample. -/
def isEngagementDrop (metrics_range : List UnifiedMetric) (i : ℕ)
    (m : UnifiedMetric) : Bool :=
  if i > 0 then
    match metrics_range[i - 1]? with
    | some prev =>
      decide (m.attention_score.getD 50 < prev.attention_score.getD 50 - 20)
    | none => false
  else false

/-- The positive-moment test of one window entry (line 255). -/
def isPositiveMoment (m : UnifiedMetric) : Bool :=
  m.unified_emotion.getD "neutral" == "happy" ||
    decide (m.unified_sentiment.getD 0 > 4/10)

/-- Embeds `_assess_conversation_health` (`integration/metrics_processor.py`,
lines 272-284). -/
def assess_conversation_health (stress drops positive : ℕ) : String :=
  if positive > stress + drops then "positive"
  else if stress > 3 ∨ drops > 3 then "concerning"
  else if stress > 0 ∨ drops > 0 then "mixed"
  else "neutral"

/-- The dict returned by `_detect_behavioral_patterns`; on the early
return only `patterns_detected` is present, modelled by the remaining
fields being empty and the summary `none`. -/
structure BehavioralPatterns where
  patterns_detected : Bool
  stress_indices : List ℕ
  engagement_drop_indices : List ℕ
  positive_indices : List ℕ
  overall_health : Option String
deriving DecidableEq, Repr

/-- Embeds `_detect_behavioral_patterns` (`integration/metrics_processor.py`,
lines 218-270), keeping the indices of the tagged entries. -/
def detect_behavioral_patterns (metrics_range : List UnifiedMetric) :
    BehavioralPatterns :=
  if metrics_range.length < 3 then ⟨false, [], [], [], none⟩
  else
    let indexed := metrics_range.enum
    let stress := (indexed.filter (fun p => isStressIndex p.2)).map (fun p => p.1)
    let drops := (indexed.filter (fun p =>
      isEngagementDrop metrics_range p.1 p.2)).map (fun p => p.1)
    let positive := (indexed.filter (fun p => isPositiveMoment p.2)).map (fun p => p.1)
    ⟨true, stress, drops, positive,
      some (assess_conversation_health stress.length drops.length positive.length)⟩

/-- The response of GET `/api/metrics/aggregated/...`. -/
inductive AggregatedResponse
  | noMetrics (message : String)
  | stats (window_seconds : ℤ) (metric_count : ℕ) (dominant_emotion : String)
      (average_sentiment : ℚ) (average_attention : ℚ)
deriving DecidableEq, Repr

/-- Embeds `get_aggregated_metrics` (`api/server.py`, lines 196-234), as a
function of the window and of the metrics the range query returned for
it.  The list comprehension for emotions filters by truthiness (and so
drops empty strings as well as NULLs); the two averages guard the
division with `if sentiments` / `if attention_scores`. -/
def get_aggregated_metrics (window : ℤ) (metrics : List UnifiedMetric) :
    AggregatedResponse :=
  if metrics.isEmpty then .noMetrics "No metrics in time window"
  else
    let emotions := (metrics.filterMap (fun m => m.unified_emotion)).filter
      (fun e => !e.isEmpty)
    let sentiments := metrics.filterMap (fun m => m.unified_sentiment)
    let attention_scores := metrics.filterMap (fun m => m.attention_score)
    let dominant_emotion :=
      if emotions.isEmpty then "neutral" else (counterMostCommon emotions).getD "neutral"
    let average_sentiment :=
      if sentiments.isEmpty then 0 else sentiments.sum / (sentiments.length : ℚ)
    let average_attention :=
      if attention_scores.isEmpty then 50
      else attention_scores.sum / (attention_scores.length : ℚ)
    .stats window metrics.length dominant_emotion average_sentiment average_attention

/-- The duration computation of the unified branch of
`get_session_report` (`api/server.py`, lines 596-613): the `if
start_time and end_time and end_time > start_time` truthiness gate, the
24h sanity check with millisecond re-derivation, and the final clamp. -/
def report_duration_unified (start_time end_time : ℚ) : ℚ :=
  if start_time ≠ 0 ∧ end_time ≠ 0 ∧ end_time > start_time then
    if end_time - start_time > 86400 then
      if (end_time - start_time) / 1000 ≤ 86400 then (end_time - start_time) / 1000
      else 86400
    else end_time - start_time
  else 0

/-- The duration computation of the video/audio fallback branch of
`get_session_report` (`api/server.py`, lines 491-499): the 24h cap with
no millisecond re-derivation.  The `start_time != float(inf)` part of
the gate holds on this branch, one of the source tables being
non-empty. -/
def report_duration_fallback (start_time end_time : ℚ) : ℚ :=
  if end_time ≠ 0 ∧ end_time > start_time then
    if end_time - start_time > 86400 then 86400
    else end_time - start_time
  else 0

/-- C5 counterexample: a window of exactly two unified metrics whose
second-half sentiment mean exceeds the first-half mean by far more than
0.2 still reports "stable", because the code computes the direction only
when at least three sentiments are present. -/
theorem sentiment_direction_two_metrics_counterexample :
    (analyze_emotional_trends
      [{ session_id := "s1", timestamp := 1, unified_sentiment := some (-1) },
       { session_id := "s1", timestamp := 2,
         unified_sentiment := some 1 }]).sentiment_direction = "stable" ∧
    ((1 : ℚ) > -1 + 2/10) ∧ ("stable" : String) ≠ "improving" := by
  refine ⟨rfl, by norm_num, by decide⟩

/-- C5 amended.  For every window whose sentiment sequence has at least
three entries, the trend detection computes `sentiment_direction` by
splitting the sentiment sequence in half and comparing the two means
with the 0.2 threshold (windows with fewer sentiments report
"stable"). -/
theorem sentiment_direction_split_means (metrics_range : List UnifiedMetric)
    (h3 : 3 ≤ (metrics_range.filterMap (fun m => m.unified_sentiment)).length) :
    (analyze_emotional_trends metrics_range).sentiment_direction =
      (let s := metrics_range.filterMap (fun m => m.unified_sentiment)
       let first_half := (s.take (s.length / 2)).sum / ((s.length / 2 : ℕ) : ℚ)
       let second_half := (s.drop (s.length / 2)).sum /
         ((s.length - s.length / 2 : ℕ) : ℚ)
       if second_half > first_half + 2/10 then "improving"
       else if second_half < first_half - 2/10 then "declining"
       else "stable") := by
  have hlen : 3 ≤ metrics_range.length :=
    le_trans h3 (List.length_filterMap_le _ _)
  unfold analyze_emotional_trends
  rw [if_neg (by omega : ¬metrics_range.length < 2)]
  show (if 3 ≤ (metrics_range.filterMap (fun m => m.unified_sentiment)).length
      then _ else _) = _
  rw [if_pos h3]
  have hmax1 : max ((metrics_range.filterMap
      (fun m => m.unified_sentiment)).length / 2) 1 =
      (metrics_range.filterMap (fun m => m.unified_sentiment)).length / 2 :=
    Nat.max_eq_left (by omega)
  have hmax2 : max ((metrics_range.filterMap (fun m => m.unified_sentiment)).length -
      (metrics_range.filterMap (fun m => m.unified_sentiment)).length / 2) 1 =
      (metrics_range.filterMap (fun m => m.unified_sentiment)).length -
        (metrics_range.filterMap (fun m => m.unified_sentiment)).length / 2 :=
    Nat.max_eq_left (by omega)
  rw [hmax1, hmax2]

/-- C5 witness: the three-metric window with sentiments
[-0.5, -0.4, 0.6] trends "improving". -/
theorem sentiment_direction_split_means_witness :
    (analyze_emotional_trends
      [{ session_id := "s1", timestamp := 1, unified_emotion := some "sad",
         unified_sentiment := some (-(1/2)) },
       { session_id := "s1", timestamp := 2, unified_emotion := some "sad",
         unified_sentiment := some (-(2/5)) },
       { session_id := "s1", timestamp := 3, unified_emotion := some "happy",
         unified_sentiment := some (3/5) }]).sentiment_direction = "improving" := by
  rw [sentiment_direction_split_means _ (by decide)]
  have hfm : List.filterMap (fun (m : UnifiedMetric) => m.unified_sentiment)
      [{ session_id := "s1", timestamp := 1, unified_emotion := some "sad",
         unified_sentiment := some (-(1/2)) },
       { session_id := "s1", timestamp := 2, unified_emotion := some "sad",
         unified_sentiment := some (-(2/5)) },
       { session_id := "s1", timestamp := 3, unified_emotion := some "happy",
         unified_sentiment := some (3/5) }] = [-(1/2), -(2/5), 3/5] := rfl
  rw [hfm]
  norm_num [List.take, List.drop]

/-- C8 counterexample: with start 1 and end 1000001 (duration 10⁶ s) the
fallback branch of the report clamps to 86400 while the claimed
computation — implemented only on the unified branch — re-derives
1000 s. -/
theorem report_duration_fallback_no_ms_rederivation :
    report_duration_fallback 1 1000001 = 86400 ∧
    report_duration_unified 1 1000001 = 1000 ∧
    (86400 : ℚ) ≠ 1000 := by
  refine ⟨?_, ?_, by norm_num⟩ <;>
    norm_num [report_duration_fallback, report_duration_unified]

/-- C8 amended.  For valid timestamps 0 < start < end the unified branch
reports end - start when that is at most 86400 s, re-derives by dividing
by 1000 when it exceeds 86400 and the re-derived value fits, and clamps
to 86400 otherwise; the video/audio fallback branch clamps directly to
86400 with no millisecond re-derivation. -/
theorem report_duration_sanity (s e : ℚ) (hs : 0 < s) (hse : s < e) :
    (e - s ≤ 86400 →
      report_duration_unified s e = e - s ∧ report_duration_fallback s e = e - s) ∧
    (86400 < e - s → (e - s) / 1000 ≤ 86400 →
      report_duration_unified s e = (e - s) / 1000) ∧
    (86400 < (e - s) / 1000 → report_duration_unified s e = 86400) ∧
    (86400 < e - s → report_duration_fallback s e = 86400) := by
  have hs0 : s ≠ 0 := ne_of_gt hs
  have he0 : e ≠ 0 := ne_of_gt (lt_trans hs hse)
  have hgate : s ≠ 0 ∧ e ≠ 0 ∧ e > s := ⟨hs0, he0, hse⟩
  refine ⟨fun h1 => ⟨?_, ?_⟩, fun h1 h2 => ?_, fun h1 => ?_, fun h1 => ?_⟩
  · unfold report_duration_unified
    rw [if_pos hgate, if_neg (not_lt.mpr h1)]
  · unfold report_duration_fallback
    rw [if_pos ⟨he0, hse⟩, if_neg (not_lt.mpr h1)]
  · unfold report_duration_unified
    rw [if_pos hgate, if_pos h1, if_pos h2]
  · have hbig : (86400 : ℚ) < e - s := by linarith
    unfold report_duration_unified
    rw [if_pos hgate, if_pos hbig, if_neg (not_le.mpr h1)]
  · unfold report_duration_fallback
    rw [if_pos ⟨he0, hse⟩, if_pos h1]

/-- C8 witness: a 100-second session reports 100 seconds on both
branches. -/
theorem report_duration_sanity_witness :
    report_duration_unified 1 101 = 100 ∧ report_duration_fallback 1 101 = 100 := by
  have h := (report_duration_sanity 1 101 (by norm_num) (by norm_num)).1 (by norm_num)
  refine ⟨?_, ?_⟩
  · rw [h.1]; norm_num
  · rw [h.2]; norm_num

/-- C9 counterexample: with exactly one data point the emotional-state
analysis does not return the neutral default classification — a single
"sad" metric is classified with primary emotion "sad" and empathy level
"high". -/
theorem single_point_emotional_state_not_default :
    analyze_emotional_state
      (some { session_id := "s1", timestamp := 1, unified_emotion := some "sad",
              unified_fatigue := some "Normal", unified_sentiment := some 0,
              attention_score := some 50, engagement_level := some "medium" }) =
      some ⟨"sad", "mild", -(1/4), "high", "simple", some false,
        some (some "medium"), some "moderate"⟩ ∧
    analyze_emotional_state
      (some { session_id := "s1", timestamp := 1, unified_emotion := some "sad",
              unified_fatigue := some "Normal", unified_sentiment := some 0,
              attention_score := some 50, engagement_level := some "medium" }) ≠
      some ⟨"neutral", "mild", 0, "low", "simple", none, none, none⟩ := by
  have hlow : ("sad" : String).toLower = "sad" := by
    show String.map Char.toLower "sad" = "sad"
    rw [String.map_eq]
    rfl
  have heval : analyze_emotional_state
      (some { session_id := "s1", timestamp := 1, unified_emotion := some "sad",
              unified_fatigue := some "Normal", unified_sentiment := some 0,
              attention_score := some 50, engagement_level := some "medium" }) =
      some ⟨"sad", "mild", -(1/4), "high", "simple", some false,
        some (some "medium"), some "moderate"⟩ := by
    simp [analyze_emotional_state, hlow, dictGetD, EMOTION_VALENCE,
      INTENSITY_THRESHOLDS, List.find?]
    norm_num
    decide
  refine ⟨heval, ?_⟩
  rw [heval]
  simp

/-- C9 amended.  With no data the emotional-state analysis returns the
neutral defaults; a window of fewer than two metrics yields the default
trends and one of fewer than three yields no detected patterns (so a
single data point gets the default trend and pattern classifications);
the emotional-state analysis of a single data point whose analysed
fields are non-null returns a well-formed classification of that point
without raising (in general not the neutral default); and the
aggregated-metrics endpoint on an empty window returns the "No metrics
in time window" message rather than dividing by zero. -/
theorem analytics_degrade_gracefully :
    analyze_emotional_state none = some ⟨"neutral", "mild", 0, "low", "simple",
      none, none, none⟩ ∧
    (∀ metrics_range : List UnifiedMetric, metrics_range.length < 2 →
      analyze_emotional_trends metrics_range =
        ⟨"unknown", "stable", "unknown", "flat", none, none⟩) ∧
    (∀ metrics_range : List UnifiedMetric, metrics_range.length < 3 →
      detect_behavioral_patterns metrics_range = ⟨false, [], [], [], none⟩) ∧
    (∀ cur : UnifiedMetric, ∀ e s a, cur.unified_emotion = some e →
      cur.unified_sentiment = some s → cur.attention_score = some a →
      (analyze_emotional_state (some cur)).isSome = true) ∧
    (∀ window : ℤ, get_aggregated_metrics window [] =
      AggregatedResponse.noMetrics "No metrics in time window") := by
  refine ⟨rfl, fun mr h => ?_, fun mr h => ?_,
    fun cur e s a he hs ha => ?_, fun w => rfl⟩
  · unfold analyze_emotional_trends
    rw [if_pos h]
  · unfold detect_behavioral_patterns
    rw [if_pos h]
  · simp [analyze_emotional_state, he, hs, ha]

/-- C9 witness: a single-metric window produces the default trends and
no patterns, a single non-null data point is classified without raising,
and the empty 60-second window aggregates to the no-metrics message. -/
theorem analytics_degrade_gracefully_witness :
    analyze_emotional_trends [{ session_id := "s1", timestamp := 1 }] =
      ⟨"unknown", "stable", "unknown", "flat", none, none⟩ ∧
    detect_behavioral_patterns [{ session_id := "s1", timestamp := 1 }] =
      ⟨false, [], [], [], none⟩ ∧
    (analyze_emotional_state
      (some { session_id := "s1", timestamp := 1,
              unified_emotion := some "neutral", unified_sentiment := some 0,
              attention_score := some 50 })).isSome = true ∧
    get_aggregated_metrics 60 [] =
      AggregatedResponse.noMetrics "No metrics in time window" := by
  exact ⟨analytics_degrade_gracefully.2.1 _ (by decide),
    analytics_degrade_gracefully.2.2.1 _ (by decide),
    analytics_degrade_gracefully.2.2.2.1 _ "neutral" 0 50 rfl rfl rfl,
    analytics_degrade_gracefully.2.2.2.2 60⟩

end Fusion
